import Mathlib

/-
Verification of the interactive crop-geometry engine of the Immich /
Meural canvas cropper. The JavaScript code is shallowly embedded over ℚ
(rationals stand in for finite JS numbers); the `JSNum` type additionally
models the IEEE special values (infinities and NaN) that JavaScript
arithmetic produces on division by zero, which matter for the degenerate
geometry analysis of `performCrop`.
-/

namespace CropEngine

/-- A rectangle in display space: `{x, y, width, height}` as stored in the
crop rectangle's style (`crop-engine.js`). -/
structure Rect where
  x : ℚ
  y : ℚ
  w : ℚ
  h : ℚ
deriving DecidableEq

/-- The image's display bounds as returned by `getImageBounds()` in
`setupCropHandlers` (`imgLeft`, `imgTop`, `imgWidth`, `imgHeight`). -/
structure Bounds where
  left : ℚ
  top : ℚ
  width : ℚ
  height : ℚ
deriving DecidableEq

/-- The four resize handles of the crop rectangle. -/
inductive Handle where
  | topLeft
  | topRight
  | bottomLeft
  | bottomRight
deriving DecidableEq

/-- A single gesture sample: either a drag of the whole rectangle or a
resize by one of the four corner handles, with the pointer delta
`(dx, dy)` relative to the gesture start. -/
inductive Gesture where
  | move (dx dy : ℚ)
  | resize (hnd : Handle) (dx dy : ℚ)
deriving DecidableEq

/-- The handle branch of `handleMoveResize` (crop-engine.js lines 481-501):
width is floored at 50 and derived from the horizontal delta, height is
width / aspectRatio, and position is computed so that (before clamping)
the corner opposite the handle stays fixed. -/
def resizeDerive (ratio : ℚ) (hnd : Handle) (s : Rect) (dx : ℚ) : Rect :=
  match hnd with
  | Handle.bottomRight =>
      { x := s.x, y := s.y,
        w := max 50 (s.w + dx), h := max 50 (s.w + dx) / ratio }
  | Handle.topRight =>
      { x := s.x, y := s.y + s.h - max 50 (s.w + dx) / ratio,
        w := max 50 (s.w + dx), h := max 50 (s.w + dx) / ratio }
  | Handle.bottomLeft =>
      { x := s.x + s.w - max 50 (s.w - dx), y := s.y,
        w := max 50 (s.w - dx), h := max 50 (s.w - dx) / ratio }
  | Handle.topLeft =>
      { x := s.x + s.w - max 50 (s.w - dx),
        y := s.y + s.h - max 50 (s.w - dx) / ratio,
        w := max 50 (s.w - dx), h := max 50 (s.w - dx) / ratio }

/-- First containment clamp of `handleMoveResize` (lines 504-509): if the
rectangle crosses the image's left edge, pin it to the edge, shrink the
width by the overshoot and re-derive the height from the ratio. -/
def clampLeft (b : Bounds) (ratio : ℚ) (r : Rect) : Rect :=
  if r.x < b.left then
    { x := b.left, y := r.y,
      w := r.w - (b.left - r.x), h := (r.w - (b.left - r.x)) / ratio }
  else r

/-- Second containment clamp (lines 511-516): top edge; shrinks the height
and re-derives the width from the ratio. -/
def clampTop (b : Bounds) (ratio : ℚ) (r : Rect) : Rect :=
  if r.y < b.top then
    { x := r.x, y := b.top,
      w := (r.h - (b.top - r.y)) * ratio, h := r.h - (b.top - r.y) }
  else r

/-- Third containment clamp (lines 518-521): right edge; shrinks the width
to fit and re-derives the height. -/
def clampRight (b : Bounds) (ratio : ℚ) (r : Rect) : Rect :=
  if b.left + b.width < r.x + r.w then
    { x := r.x, y := r.y,
      w := b.left + b.width - r.x, h := (b.left + b.width - r.x) / ratio }
  else r

/-- Fourth containment clamp (lines 523-526): bottom edge; shrinks the
height to fit and re-derives the width. -/
def clampBottom (b : Bounds) (ratio : ℚ) (r : Rect) : Rect :=
  if b.top + b.height < r.y + r.h then
    { x := r.x, y := r.y,
      w := (b.top + b.height - r.y) * ratio, h := b.top + b.height - r.y }
  else r

/-- The resize half of `handleMoveResize`: derive the rectangle from the
handle and delta, then apply the four containment clamps in source order
(left, top, right, bottom). -/
def resizeSolve (b : Bounds) (ratio : ℚ) (hnd : Handle) (s : Rect) (dx : ℚ) : Rect :=
  clampBottom b ratio
    (clampRight b ratio (clampTop b ratio (clampLeft b ratio (resizeDerive ratio hnd s dx))))

/-- The drag half of `handleMoveResize` (lines 446-460): translate by the
delta and clamp each axis independently to keep the rectangle on the
image; size is unchanged. -/
def moveSolve (b : Bounds) (s : Rect) (dx dy : ℚ) : Rect :=
  { x := max b.left (min (s.x + dx) (b.left + b.width - s.w)),
    y := max b.top (min (s.y + dy) (b.top + b.height - s.h)),
    w := s.w, h := s.h }

/-- The combined gesture solver `handleMoveResize` (crop-engine.js
lines 441-537) as a function of the gesture-start rectangle and the
pointer delta. -/
def handleMoveResize (b : Bounds) (ratio : ℚ) (s : Rect) : Gesture → Rect
  | Gesture.move dx dy => moveSolve b s dx dy
  | Gesture.resize hnd dx _ => resizeSolve b ratio hnd s dx

/-- The four containment inequalities of the display-bounds invariant:
`x ≥ imageLeft`, `y ≥ imageTop`, `x+width ≤ imageLeft+imageWidth`,
`y+height ≤ imageTop+imageHeight`. -/
def contained (b : Bounds) (r : Rect) : Prop :=
  b.left ≤ r.x ∧ b.top ≤ r.y ∧
  r.x + r.w ≤ b.left + b.width ∧ r.y + r.h ≤ b.top + b.height

instance (b : Bounds) (r : Rect) : Decidable (contained b r) := by
  unfold contained; infer_instance

/-- A rectangle lying within the image's display bounds (the containment
inequalities together with non-negative size). -/
def inBounds (b : Bounds) (r : Rect) : Prop :=
  contained b r ∧ 0 ≤ r.w ∧ 0 ≤ r.h

instance (b : Bounds) (r : Rect) : Decidable (inBounds b r) := by
  unfold inBounds; infer_instance

/-- The corner opposite the dragged handle: the corner that, per the spec,
is the anchor of the resize and must not move. -/
def anchorCorner (hnd : Handle) (r : Rect) : ℚ × ℚ :=
  match hnd with
  | Handle.bottomRight => (r.x, r.y)
  | Handle.topRight => (r.x, r.y + r.h)
  | Handle.bottomLeft => (r.x + r.w, r.y)
  | Handle.topLeft => (r.x + r.w, r.y + r.h)

/-- A rectangle in native (original image) pixel space, integer valued. -/
structure NativeRect where
  x : ℤ
  y : ℤ
  w : ℤ
  h : ℤ
deriving DecidableEq

/-- The `scaledCrop` computation of `performCrop` (crop-engine.js lines
636-649): multiply x,width by `scaleX = naturalWidth/displayWidth` and
y,height by `scaleY = naturalHeight/displayHeight`, floor each result,
then clamp width to `naturalWidth - x` and height to `naturalHeight - y`. -/
def scaledCrop (nW nH : ℕ) (dW dH : ℚ) (crop : Rect) : NativeRect :=
  { x := ⌊crop.x * ((nW : ℚ) / dW)⌋
    y := ⌊crop.y * ((nH : ℚ) / dH)⌋
    w := min ⌊crop.w * ((nW : ℚ) / dW)⌋ ((nW : ℤ) - ⌊crop.x * ((nW : ℚ) / dW)⌋)
    h := min ⌊crop.h * ((nH : ℚ) / dH)⌋ ((nH : ℤ) - ⌊crop.y * ((nH : ℚ) / dH)⌋) }

/-- The saved-crop branch of `initCropRectangle` (crop-engine.js lines
192-213): scale the stored crop by `imgWidth/naturalWidth` (resp. height),
offset by the image origin, clamp the size to the image, and shift the
rectangle back inside if it extends past the right or bottom edge. -/
def projectSavedCrop (nW nH imgLeft imgTop imgW imgH : ℚ) (saved : Rect) : Rect :=
  { x := if imgLeft + imgW < imgLeft + saved.x * (imgW / nW) + min (saved.w * (imgW / nW)) imgW
         then imgLeft + imgW - min (saved.w * (imgW / nW)) imgW
         else imgLeft + saved.x * (imgW / nW)
    y := if imgTop + imgH < imgTop + saved.y * (imgH / nH) + min (saved.h * (imgH / nH)) imgH
         then imgTop + imgH - min (saved.h * (imgH / nH)) imgH
         else imgTop + saved.y * (imgH / nH)
    w := min (saved.w * (imgW / nW)) imgW
    h := min (saved.h * (imgH / nH)) imgH }

/-- Projection of a stored native-space crop onto display coordinates: the
saved-crop branch of `initCropRectangle` applied to an integer rectangle. -/
def toDisplayProj (nW nH : ℕ) (imgLeft imgTop dW dH : ℚ) (saved : NativeRect) : Rect :=
  projectSavedCrop (nW : ℚ) (nH : ℚ) imgLeft imgTop dW dH
    { x := (saved.x : ℚ), y := (saved.y : ℚ), w := (saved.w : ℚ), h := (saved.h : ℚ) }

/-- The round trip of the two coordinate transforms: commit a display
rectangle to native space (`performCrop`'s `scaledCrop`) and re-project
the result onto the same display geometry (`initCropRectangle`'s
saved-crop branch). -/
def roundTrip (nW nH : ℕ) (imgLeft imgTop dW dH : ℚ) (r : Rect) : Rect :=
  toDisplayProj nW nH imgLeft imgTop dW dH (scaledCrop nW nH dW dH r)

/-- The default-crop branch of `initCropRectangle` (lines 221-238): the
largest rectangle of the target ratio that fits the image, centered. -/
def defaultCropRect (imgLeft imgTop imgW imgH aspect : ℚ) : Rect :=
  { x := imgLeft + (imgW - min (if aspect < imgW / imgH then imgH * aspect else imgW) imgW) / 2
    y := imgTop + (imgH - min (if aspect < imgW / imgH then imgH else imgW / aspect) imgH) / 2
    w := min (if aspect < imgW / imgH then imgH * aspect else imgW) imgW
    h := min (if aspect < imgW / imgH then imgH else imgW / aspect) imgH }

/-- `initCropRectangle` (crop-engine.js lines 161-274): use the stored crop
for the current stage if it has positive size (scaling it as if it were in
native coordinates), otherwise compute the centered default. -/
def initCropRectangle (nW nH imgLeft imgTop imgW imgH aspect : ℚ) (saved : Rect) : Rect :=
  if 0 < saved.w ∧ 0 < saved.h then
    projectSavedCrop nW nH imgLeft imgTop imgW imgH saved
  else
    defaultCropRect imgLeft imgTop imgW imgH aspect

/-- The stored per-orientation crop value: coordinates relative to the
image origin (`x: cropX - imgLeft`, `y: cropY - imgTop`), as written by
`initCropRectangle` (lines 252-266) and `updateCropValues` (lines 585-613). -/
def storedOf (imgLeft imgTop : ℚ) (r : Rect) : Rect :=
  { x := r.x - imgLeft, y := r.y - imgTop, w := r.w, h := r.h }

/-- The crop session: the workflow stage and the two stored orientation
crops (`window.APP_STATE`). -/
structure Session where
  stage : ℕ
  portraitCrop : Rect
  landscapeCrop : Rect
deriving DecidableEq

/-- Entering an editing stage re-runs `initCropRectangle` for that stage's
orientation, displays the resulting rectangle, and stores it back into the
stage's crop field. Returns the updated session and the displayed
rectangle. -/
def enterStage (nW nH imgLeft imgTop imgW imgH pAspect lAspect : ℚ) (s : Session) :
    Session × Rect :=
  if s.stage = 1 then
    let r := initCropRectangle nW nH imgLeft imgTop imgW imgH pAspect s.portraitCrop
    ({ s with portraitCrop := storedOf imgLeft imgTop r }, r)
  else if s.stage = 2 then
    let r := initCropRectangle nW nH imgLeft imgTop imgW imgH lAspect s.landscapeCrop
    ({ s with landscapeCrop := storedOf imgLeft imgTop r }, r)
  else (s, { x := 0, y := 0, w := 0, h := 0 })

/-- The `btn-crop` handler (main.js): from Portrait, submit the portrait
crop (which does not modify the stored crops) and advance to Landscape,
whose entry re-initializes the landscape rectangle. -/
def advanceBtn (nW nH imgLeft imgTop imgW imgH pAspect lAspect : ℚ) (s : Session) :
    Session × Rect :=
  if s.stage = 1 then
    enterStage nW nH imgLeft imgTop imgW imgH pAspect lAspect { s with stage := 2 }
  else if s.stage = 2 then
    ({ s with stage := 3 }, { x := 0, y := 0, w := 0, h := 0 })
  else (s, { x := 0, y := 0, w := 0, h := 0 })

/-- The `btn-back` handler (main.js): step back one stage and re-enter it. -/
def backBtn (nW nH imgLeft imgTop imgW imgH pAspect lAspect : ℚ) (s : Session) :
    Session × Rect :=
  if s.stage = 2 then
    enterStage nW nH imgLeft imgTop imgW imgH pAspect lAspect { s with stage := 1 }
  else if s.stage = 3 then
    enterStage nW nH imgLeft imgTop imgW imgH pAspect lAspect { s with stage := 2 }
  else (s, { x := 0, y := 0, w := 0, h := 0 })

/-- One invocation of `updateStage` (ui-controller.js) restricted to its
stage-transition effect: given the guard flags, the stored crop widths and
the current stage, return the stage afterwards and whether a re-invocation
of `updateStage` was scheduled (the Review-with-no-crops redirect). -/
def updateStage (initialized syncing : Bool) (pw lw : ℚ) (stage : ℕ) : ℕ × Bool :=
  if !initialized || syncing then (stage, false)
  else if stage = 3 then
    if ¬0 < pw ∧ ¬0 < lw then (1, true) else (3, false)
  else (stage, false)

/-- The gesture controller's mutable flags (`isDragging`, `isResizing` in
`setupCropHandlers`). -/
structure GestureFlags where
  dragging : Bool
  resizing : Bool
deriving DecidableEq

/-- Pointer events relevant to the gesture flags: a mousedown/touchstart on
the crop rectangle (recording whether the event target is the rectangle
itself), a mousedown/touchstart on a resize handle, a movement sample, and
a mouseup/touchend. -/
inductive GEvent where
  | rectDown (targetIsRect : Bool)
  | handleDown
  | move
  | up
deriving DecidableEq

/-- The effect of one pointer event on the gesture flags, as implemented by
`setupCropHandlers` (crop-engine.js lines 374-425, 540-579): rectangle
mousedown sets `isDragging` when the target is the rectangle, handle
mousedown sets `isResizing` (after `stopPropagation`, so the rectangle
handler does not also run), and mouseup/touchend clears both flags when
either is set. -/
def gestureStep (s : GestureFlags) : GEvent → GestureFlags
  | GEvent.rectDown t => if t then { s with dragging := true } else s
  | GEvent.handleDown => { s with resizing := true }
  | GEvent.move => s
  | GEvent.up => if s.dragging || s.resizing then { dragging := false, resizing := false } else s

/-- The gesture flags after a sequence of pointer events starting from the
idle state. -/
def gestureRun (evs : List GEvent) : GestureFlags :=
  evs.foldl gestureStep { dragging := false, resizing := false }

/-- The two target orientations. -/
inductive Orientation where
  | portrait
  | landscape
deriving DecidableEq

/-- A configured target dimension record (`width`/`height`). -/
structure Dimensions where
  width : ℚ
  height : ℚ
deriving DecidableEq

/-- `window.CONFIG` of config-service.js: the per-orientation dimension
records plus the initialized flag. -/
structure Config where
  dimensions : Orientation → Dimensions
  initialized : Bool

/-- `getDimensions` (config-service.js): fails when the configuration has
not been initialized, else returns the record for the orientation. -/
def getDimensions (c : Config) (o : Orientation) : Option Dimensions :=
  if c.initialized then some (c.dimensions o) else none

/-- `getAspectRatio` (config-service.js): the orientation conditional whose
two branches both compute `dims.width / dims.height`. -/
def getAspectRatio (c : Config) (o : Orientation) : Option ℚ :=
  Option.map
    (fun d => if o = Orientation.portrait then d.width / d.height else d.width / d.height)
    (getDimensions c o)

/-- JavaScript numbers restricted to what the crop arithmetic needs: exact
finite values (rationals) plus the IEEE special values. -/
inductive JSNum where
  | num (q : ℚ)
  | posInf
  | negInf
  | nan
deriving DecidableEq

/-- JavaScript multiplication on `JSNum` (sign rules for infinities,
`0 * ±∞ = NaN`, NaN propagation). -/
def jmul : JSNum → JSNum → JSNum
  | JSNum.nan, _ => JSNum.nan
  | _, JSNum.nan => JSNum.nan
  | JSNum.num a, JSNum.num b => JSNum.num (a * b)
  | JSNum.num a, JSNum.posInf =>
      if 0 < a then JSNum.posInf else if a < 0 then JSNum.negInf else JSNum.nan
  | JSNum.num a, JSNum.negInf =>
      if 0 < a then JSNum.negInf else if a < 0 then JSNum.posInf else JSNum.nan
  | JSNum.posInf, JSNum.num b =>
      if 0 < b then JSNum.posInf else if b < 0 then JSNum.negInf else JSNum.nan
  | JSNum.negInf, JSNum.num b =>
      if 0 < b then JSNum.negInf else if b < 0 then JSNum.posInf else JSNum.nan
  | JSNum.posInf, JSNum.posInf => JSNum.posInf
  | JSNum.posInf, JSNum.negInf => JSNum.negInf
  | JSNum.negInf, JSNum.posInf => JSNum.negInf
  | JSNum.negInf, JSNum.negInf => JSNum.posInf

/-- JavaScript division on `JSNum` (division by zero yields a signed
infinity, `0/0 = NaN`; the negative zero distinction is not modelled). -/
def jdiv : JSNum → JSNum → JSNum
  | JSNum.nan, _ => JSNum.nan
  | _, JSNum.nan => JSNum.nan
  | JSNum.num a, JSNum.num b =>
      if b = 0 then (if 0 < a then JSNum.posInf else if a < 0 then JSNum.negInf else JSNum.nan)
      else JSNum.num (a / b)
  | JSNum.num _, JSNum.posInf => JSNum.num 0
  | JSNum.num _, JSNum.negInf => JSNum.num 0
  | JSNum.posInf, JSNum.num b => if 0 ≤ b then JSNum.posInf else JSNum.negInf
  | JSNum.negInf, JSNum.num b => if 0 ≤ b then JSNum.negInf else JSNum.posInf
  | JSNum.posInf, JSNum.posInf => JSNum.nan
  | JSNum.posInf, JSNum.negInf => JSNum.nan
  | JSNum.negInf, JSNum.posInf => JSNum.nan
  | JSNum.negInf, JSNum.negInf => JSNum.nan

/-- JavaScript subtraction on `JSNum`. -/
def jsub : JSNum → JSNum → JSNum
  | JSNum.nan, _ => JSNum.nan
  | _, JSNum.nan => JSNum.nan
  | JSNum.num a, JSNum.num b => JSNum.num (a - b)
  | JSNum.num _, JSNum.posInf => JSNum.negInf
  | JSNum.num _, JSNum.negInf => JSNum.posInf
  | JSNum.posInf, JSNum.num _ => JSNum.posInf
  | JSNum.negInf, JSNum.num _ => JSNum.negInf
  | JSNum.posInf, JSNum.posInf => JSNum.nan
  | JSNum.posInf, JSNum.negInf => JSNum.posInf
  | JSNum.negInf, JSNum.posInf => JSNum.negInf
  | JSNum.negInf, JSNum.negInf => JSNum.nan

/-- `Math.floor` on `JSNum` (`floor(±∞) = ±∞`, `floor(NaN) = NaN`). -/
def jfloor : JSNum → JSNum
  | JSNum.num a => JSNum.num (⌊a⌋ : ℤ)
  | x => x

/-- `Math.min` on `JSNum` (returns NaN if either argument is NaN). -/
def jmin : JSNum → JSNum → JSNum
  | JSNum.nan, _ => JSNum.nan
  | _, JSNum.nan => JSNum.nan
  | JSNum.num a, JSNum.num b => JSNum.num (min a b)
  | JSNum.num a, JSNum.posInf => JSNum.num a
  | JSNum.num _, JSNum.negInf => JSNum.negInf
  | JSNum.posInf, JSNum.num b => JSNum.num b
  | JSNum.negInf, JSNum.num _ => JSNum.negInf
  | JSNum.posInf, JSNum.posInf => JSNum.posInf
  | JSNum.posInf, JSNum.negInf => JSNum.negInf
  | JSNum.negInf, JSNum.posInf => JSNum.negInf
  | JSNum.negInf, JSNum.negInf => JSNum.negInf

/-- Whether a `JSNum` is a finite number. -/
def jsFinite : JSNum → Bool
  | JSNum.num _ => true
  | _ => false

/-- A rectangle whose coordinates are JavaScript numbers. -/
structure JSRect where
  x : JSNum
  y : JSNum
  w : JSNum
  h : JSNum
deriving DecidableEq

/-- The `scaledCrop` computation of `performCrop` carried out in full
JavaScript number semantics, including the special values produced by a
degenerate geometry (`displayWidth` or `displayHeight` zero). -/
def scaledCropJS (nW nH dW dH : JSNum) (crop : JSRect) : JSRect :=
  { x := jfloor (jmul crop.x (jdiv nW dW))
    y := jfloor (jmul crop.y (jdiv nH dH))
    w := jmin (jfloor (jmul crop.w (jdiv nW dW)))
              (jsub nW (jfloor (jmul crop.x (jdiv nW dW))))
    h := jmin (jfloor (jmul crop.h (jdiv nH dH)))
              (jsub nH (jfloor (jmul crop.y (jdiv nH dH)))) }

theorem clampLeft_x_ge (b : Bounds) (ratio : ℚ) (r : Rect) :
    b.left ≤ (clampLeft b ratio r).x := by
  unfold clampLeft; split
  · exact le_refl _
  · next h => exact le_of_not_lt h

theorem clampLeft_y (b : Bounds) (ratio : ℚ) (r : Rect) :
    (clampLeft b ratio r).y = r.y := by
  unfold clampLeft; split <;> rfl

theorem clampTop_x (b : Bounds) (ratio : ℚ) (r : Rect) :
    (clampTop b ratio r).x = r.x := by
  unfold clampTop; split <;> rfl

theorem clampTop_y_ge (b : Bounds) (ratio : ℚ) (r : Rect) :
    b.top ≤ (clampTop b ratio r).y := by
  unfold clampTop; split
  · exact le_refl _
  · next h => exact le_of_not_lt h

theorem clampRight_x (b : Bounds) (ratio : ℚ) (r : Rect) :
    (clampRight b ratio r).x = r.x := by
  unfold clampRight; split <;> rfl

theorem clampRight_y (b : Bounds) (ratio : ℚ) (r : Rect) :
    (clampRight b ratio r).y = r.y := by
  unfold clampRight; split <;> rfl

theorem clampRight_sum (b : Bounds) (ratio : ℚ) (r : Rect) :
    (clampRight b ratio r).x + (clampRight b ratio r).w ≤ b.left + b.width := by
  unfold clampRight; split
  · next h => simp only []; linarith
  · next h => exact le_of_not_lt h

theorem clampBottom_x (b : Bounds) (ratio : ℚ) (r : Rect) :
    (clampBottom b ratio r).x = r.x := by
  unfold clampBottom; split <;> rfl

theorem clampBottom_y (b : Bounds) (ratio : ℚ) (r : Rect) :
    (clampBottom b ratio r).y = r.y := by
  unfold clampBottom; split <;> rfl

theorem clampBottom_sum (b : Bounds) (ratio : ℚ) (r : Rect) :
    (clampBottom b ratio r).y + (clampBottom b ratio r).h ≤ b.top + b.height := by
  unfold clampBottom; split
  · next h => simp only []; linarith
  · next h => exact le_of_not_lt h

theorem clampLeft_ratio (b : Bounds) (ratio : ℚ) (r : Rect) (hr : ratio ≠ 0)
    (h : r.w = r.h * ratio) :
    (clampLeft b ratio r).w = (clampLeft b ratio r).h * ratio := by
  unfold clampLeft; split
  · exact (div_mul_cancel₀ _ hr).symm
  · exact h

theorem clampTop_ratio (b : Bounds) (ratio : ℚ) (r : Rect)
    (h : r.w = r.h * ratio) :
    (clampTop b ratio r).w = (clampTop b ratio r).h * ratio := by
  unfold clampTop; split
  · rfl
  · exact h

theorem clampRight_ratio (b : Bounds) (ratio : ℚ) (r : Rect) (hr : ratio ≠ 0)
    (h : r.w = r.h * ratio) :
    (clampRight b ratio r).w = (clampRight b ratio r).h * ratio := by
  unfold clampRight; split
  · exact (div_mul_cancel₀ _ hr).symm
  · exact h

theorem clampBottom_ratio (b : Bounds) (ratio : ℚ) (r : Rect)
    (h : r.w = r.h * ratio) :
    (clampBottom b ratio r).w = (clampBottom b ratio r).h * ratio := by
  unfold clampBottom; split
  · rfl
  · exact h

theorem clampBottom_w_le (b : Bounds) (ratio : ℚ) (r : Rect) (hr : 0 < ratio)
    (h : r.w = r.h * ratio) :
    (clampBottom b ratio r).w ≤ r.w := by
  unfold clampBottom; split
  · next hc =>
      simp only []
      rw [h]
      exact mul_le_mul_of_nonneg_right (by linarith) hr.le
  · exact le_refl _

theorem resizeDerive_ratio (ratio : ℚ) (hnd : Handle) (s : Rect) (dx : ℚ)
    (hr : ratio ≠ 0) :
    (resizeDerive ratio hnd s dx).w = (resizeDerive ratio hnd s dx).h * ratio := by
  cases hnd <;> exact (div_mul_cancel₀ _ hr).symm

theorem chain_ratio (b : Bounds) (ratio : ℚ) (r : Rect) (hr : ratio ≠ 0)
    (h : r.w = r.h * ratio) :
    (clampBottom b ratio (clampRight b ratio (clampTop b ratio (clampLeft b ratio r)))).w =
      (clampBottom b ratio (clampRight b ratio (clampTop b ratio (clampLeft b ratio r)))).h *
        ratio :=
  clampBottom_ratio _ _ _
    (clampRight_ratio _ _ _ hr (clampTop_ratio _ _ _ (clampLeft_ratio _ _ _ hr h)))

theorem chain_contained (b : Bounds) (ratio : ℚ) (r : Rect) (hr : 0 < ratio)
    (h : r.w = r.h * ratio) :
    contained b
      (clampBottom b ratio (clampRight b ratio (clampTop b ratio (clampLeft b ratio r)))) := by
  have hP3 :
      (clampRight b ratio (clampTop b ratio (clampLeft b ratio r))).w =
        (clampRight b ratio (clampTop b ratio (clampLeft b ratio r))).h * ratio :=
    clampRight_ratio _ _ _ hr.ne' (clampTop_ratio _ _ _ (clampLeft_ratio _ _ _ hr.ne' h))
  refine ⟨?_, ?_, ?_, ?_⟩
  · rw [clampBottom_x, clampRight_x, clampTop_x]
    exact clampLeft_x_ge b ratio r
  · rw [clampBottom_y, clampRight_y]
    exact clampTop_y_ge b ratio _
  · rw [clampBottom_x]
    calc (clampRight b ratio (clampTop b ratio (clampLeft b ratio r))).x +
          (clampBottom b ratio (clampRight b ratio (clampTop b ratio (clampLeft b ratio r)))).w
        ≤ (clampRight b ratio (clampTop b ratio (clampLeft b ratio r))).x +
            (clampRight b ratio (clampTop b ratio (clampLeft b ratio r))).w := by
          have := clampBottom_w_le b ratio
            (clampRight b ratio (clampTop b ratio (clampLeft b ratio r))) hr hP3
          linarith
      _ ≤ b.left + b.width := clampRight_sum b ratio _
  · exact clampBottom_sum b ratio _

theorem resizeSolve_contained (b : Bounds) (ratio : ℚ) (hnd : Handle) (s : Rect)
    (dx : ℚ) (hr : 0 < ratio) :
    contained b (resizeSolve b ratio hnd s dx) :=
  chain_contained b ratio _ hr (resizeDerive_ratio ratio hnd s dx hr.ne')

theorem resizeSolve_ratio (b : Bounds) (ratio : ℚ) (hnd : Handle) (s : Rect)
    (dx : ℚ) (hr : ratio ≠ 0) :
    (resizeSolve b ratio hnd s dx).w = (resizeSolve b ratio hnd s dx).h * ratio :=
  chain_ratio b ratio _ hr (resizeDerive_ratio ratio hnd s dx hr)

/-- Claim C1 (counterexample): the claim as stated fails for move gesture
samples, whose output keeps the starting rectangle's size. The starting
rectangle `(0,0,100,100)` lies within the bounds `(0,0,1000,1000)`, yet
after the move sample `(0,0)` the output rectangle has ratio `1`, not the
portrait target ratio `9/16`. -/
theorem handleMoveResize_move_ratio_cex :
    inBounds { left := 0, top := 0, width := 1000, height := 1000 }
      { x := 0, y := 0, w := 100, h := 100 } ∧
    handleMoveResize { left := 0, top := 0, width := 1000, height := 1000 } (9 / 16)
        { x := 0, y := 0, w := 100, h := 100 } (Gesture.move 0 0) =
      { x := 0, y := 0, w := 100, h := 100 } ∧
    ¬ ((100 : ℚ) = 100 * (9 / 16)) := by
  refine ⟨by norm_num [inBounds, contained], by norm_num [handleMoveResize, moveSolve],
    by norm_num⟩

/-- Claim C1 (amended): for every resize or move gesture sample processed
by `handleMoveResize`, if the starting rectangle lies within the image's
display bounds and additionally satisfies the target ratio (which move
samples, leaving the size unchanged, need in order to output it), then the
output rectangle satisfies `width = height * targetRatio` exactly and the
four containment inequalities of the display bounds. -/
theorem handleMoveResize_ratio_contained (b : Bounds) (ratio : ℚ) (s : Rect)
    (g : Gesture) (hr : 0 < ratio) (hs : inBounds b s) (hq : s.w = s.h * ratio) :
    (handleMoveResize b ratio s g).w = (handleMoveResize b ratio s g).h * ratio ∧
    contained b (handleMoveResize b ratio s g) := by
  obtain ⟨⟨hL, hT, hR, hB⟩, hw0, hh0⟩ := hs
  cases g with
  | move dx dy =>
      simp only [handleMoveResize, moveSolve]
      refine ⟨hq, le_max_left _ _, le_max_left _ _, ?_, ?_⟩
      · have h1 : max b.left (min (s.x + dx) (b.left + b.width - s.w)) ≤
            b.left + b.width - s.w :=
          max_le (by linarith) (min_le_right _ _)
        linarith
      · have h1 : max b.top (min (s.y + dy) (b.top + b.height - s.h)) ≤
            b.top + b.height - s.h :=
          max_le (by linarith) (min_le_right _ _)
        linarith
  | resize hnd dx dy =>
      exact ⟨resizeSolve_ratio b ratio hnd s dx hr.ne',
             resizeSolve_contained b ratio hnd s dx hr⟩

/-- Claim C1 (witness): a concrete portrait resize sample; the hypotheses
hold at the inputs and the conclusion follows by the amended theorem. -/
theorem handleMoveResize_ratio_contained_witness :
    (0 : ℚ) < 9 / 16 ∧
    inBounds { left := 0, top := 0, width := 1000, height := 1000 }
      { x := 0, y := 0, w := 90, h := 160 } ∧
    (90 : ℚ) = 160 * (9 / 16) ∧
    ((handleMoveResize { left := 0, top := 0, width := 1000, height := 1000 } (9 / 16)
          { x := 0, y := 0, w := 90, h := 160 }
          (Gesture.resize Handle.bottomRight 10 0)).w =
        (handleMoveResize { left := 0, top := 0, width := 1000, height := 1000 } (9 / 16)
            { x := 0, y := 0, w := 90, h := 160 }
            (Gesture.resize Handle.bottomRight 10 0)).h * (9 / 16) ∧
      contained { left := 0, top := 0, width := 1000, height := 1000 }
        (handleMoveResize { left := 0, top := 0, width := 1000, height := 1000 } (9 / 16)
          { x := 0, y := 0, w := 90, h := 160 }
          (Gesture.resize Handle.bottomRight 10 0))) :=
  ⟨by norm_num, by norm_num [inBounds, contained], by norm_num,
   handleMoveResize_ratio_contained { left := 0, top := 0, width := 1000, height := 1000 }
     (9 / 16) { x := 0, y := 0, w := 90, h := 160 }
     (Gesture.resize Handle.bottomRight 10 0) (by norm_num)
     (by norm_num [inBounds, contained]) (by norm_num)⟩

theorem clampLeft_id (b : Bounds) (ratio : ℚ) (r : Rect) (h : b.left ≤ r.x) :
    clampLeft b ratio r = r := by
  unfold clampLeft; exact if_neg (not_lt.2 h)

theorem clampTop_id (b : Bounds) (ratio : ℚ) (r : Rect) (h : b.top ≤ r.y) :
    clampTop b ratio r = r := by
  unfold clampTop; exact if_neg (not_lt.2 h)

theorem clampRight_id (b : Bounds) (ratio : ℚ) (r : Rect)
    (h : r.x + r.w ≤ b.left + b.width) : clampRight b ratio r = r := by
  unfold clampRight; exact if_neg (not_lt.2 h)

theorem clampBottom_id (b : Bounds) (ratio : ℚ) (r : Rect)
    (h : r.y + r.h ≤ b.top + b.height) : clampBottom b ratio r = r := by
  unfold clampBottom; exact if_neg (not_lt.2 h)

theorem resizeSolve_eq_of_contained (b : Bounds) (ratio : ℚ) (hnd : Handle)
    (s : Rect) (dx : ℚ) (hd : contained b (resizeDerive ratio hnd s dx)) :
    resizeSolve b ratio hnd s dx = resizeDerive ratio hnd s dx := by
  obtain ⟨h1, h2, h3, h4⟩ := hd
  unfold resizeSolve
  rw [clampLeft_id b ratio _ h1, clampTop_id b ratio _ h2,
      clampRight_id b ratio _ h3, clampBottom_id b ratio _ h4]

/-- Claim C3 (counterexample): the anchor does move when a containment
clamp fires. Dragging the bottom-left handle of the in-bounds rectangle
`(500,500,100,100)` by `dx = -450` (ratio 1, bounds `(0,0,1000,1000)`)
makes the derived rectangle cross the bottom edge; the bottom clamp
shrinks the height and re-derives the width without re-deriving the left
edge, so the top-right anchor moves from `(600,500)` to `(550,500)`. -/
theorem resize_anchor_moved_cex :
    inBounds { left := 0, top := 0, width := 1000, height := 1000 }
      { x := 500, y := 500, w := 100, h := 100 } ∧
    resizeSolve { left := 0, top := 0, width := 1000, height := 1000 } 1
        Handle.bottomLeft { x := 500, y := 500, w := 100, h := 100 } (-450) =
      { x := 50, y := 500, w := 500, h := 500 } ∧
    anchorCorner Handle.bottomLeft
        (resizeSolve { left := 0, top := 0, width := 1000, height := 1000 } 1
          Handle.bottomLeft { x := 500, y := 500, w := 100, h := 100 } (-450)) ≠
      anchorCorner Handle.bottomLeft { x := 500, y := 500, w := 100, h := 100 } := by
  have h : resizeSolve { left := 0, top := 0, width := 1000, height := 1000 } 1
      Handle.bottomLeft { x := 500, y := 500, w := 100, h := 100 } (-450) =
      { x := 50, y := 500, w := 500, h := 500 } := by
    norm_num [resizeSolve, resizeDerive, clampLeft, clampTop, clampRight, clampBottom]
  refine ⟨by norm_num [inBounds, contained], h, ?_⟩
  rw [h]
  norm_num [anchorCorner]

/-- Claim C3 (amended): the corner opposite the dragged handle is the
anchor and does not move, provided the derived rectangle stays within the
image bounds (no edge-containment clamp fires); when a clamp reduces the
derived width or height, the anchored corner can move. -/
theorem resize_anchor_preserved (b : Bounds) (ratio : ℚ) (hnd : Handle) (s : Rect)
    (dx : ℚ) (hd : contained b (resizeDerive ratio hnd s dx)) :
    anchorCorner hnd (resizeSolve b ratio hnd s dx) = anchorCorner hnd s := by
  rw [resizeSolve_eq_of_contained b ratio hnd s dx hd]
  cases hnd <;> simp only [anchorCorner, resizeDerive, Prod.mk.injEq] <;>
    constructor <;> ring_nf

/-- Claim C3 (witness): growing the bottom-right handle well inside the
bounds leaves the top-left corner fixed. -/
theorem resize_anchor_preserved_witness :
    contained { left := 0, top := 0, width := 1000, height := 1000 }
      (resizeDerive 1 Handle.bottomRight { x := 100, y := 100, w := 200, h := 200 } 50) ∧
    anchorCorner Handle.bottomRight
        (resizeSolve { left := 0, top := 0, width := 1000, height := 1000 } 1
          Handle.bottomRight { x := 100, y := 100, w := 200, h := 200 } 50) =
      anchorCorner Handle.bottomRight { x := 100, y := 100, w := 200, h := 200 } :=
  ⟨by norm_num [contained, resizeDerive],
   resize_anchor_preserved { left := 0, top := 0, width := 1000, height := 1000 } 1
     Handle.bottomRight { x := 100, y := 100, w := 200, h := 200 } 50
     (by norm_num [contained, resizeDerive])⟩

/-- Claim C6 (counterexample): the 50-pixel floor is applied to the width
only; the height is derived as width/aspectRatio and drops below 50
whenever the ratio exceeds 1. With the landscape ratio 16/9, starting from
the in-bounds rectangle `(0,0,160,90)` and dragging the bottom-right
handle by `dx = -200`, no containment clamp fires and the output is
`(0,0,50,225/8)`: its height 28.125 is below the 50-pixel floor. -/
theorem resize_min_floor_cex :
    inBounds { left := 0, top := 0, width := 1000, height := 1000 }
      { x := 0, y := 0, w := 160, h := 90 } ∧
    resizeSolve { left := 0, top := 0, width := 1000, height := 1000 } (16 / 9)
        Handle.bottomRight { x := 0, y := 0, w := 160, h := 90 } (-200) =
      { x := 0, y := 0, w := 50, h := 225 / 8 } ∧
    ¬ (50 : ℚ) ≤ 225 / 8 := by
  refine ⟨by norm_num [inBounds, contained], ?_, by norm_num⟩
  norm_num [resizeSolve, resizeDerive, clampLeft, clampTop, clampRight, clampBottom]

/-- Claim C6 (amended): the solver floors the derived width at 50 pixels;
whenever no edge-containment clamp fires, the output width is at least 50
and the output height equals width/aspectRatio (so the height floor is
50/aspectRatio, not 50); a containment clamp applied afterwards can push
both dimensions below the floor. -/
theorem resize_min_floor (b : Bounds) (ratio : ℚ) (hnd : Handle) (s : Rect)
    (dx : ℚ) (hd : contained b (resizeDerive ratio hnd s dx)) :
    50 ≤ (resizeSolve b ratio hnd s dx).w ∧
    (resizeSolve b ratio hnd s dx).h = (resizeSolve b ratio hnd s dx).w / ratio := by
  rw [resizeSolve_eq_of_contained b ratio hnd s dx hd]
  cases hnd <;> exact ⟨le_max_left _ _, rfl⟩

/-- Claim C6 (witness): a concrete no-clamp resize where the floor holds. -/
theorem resize_min_floor_witness :
    contained { left := 0, top := 0, width := 1000, height := 1000 }
      (resizeDerive 1 Handle.bottomRight { x := 0, y := 0, w := 100, h := 100 } 0) ∧
    (50 ≤ (resizeSolve { left := 0, top := 0, width := 1000, height := 1000 } 1
        Handle.bottomRight { x := 0, y := 0, w := 100, h := 100 } 0).w ∧
      (resizeSolve { left := 0, top := 0, width := 1000, height := 1000 } 1
          Handle.bottomRight { x := 0, y := 0, w := 100, h := 100 } 0).h =
        (resizeSolve { left := 0, top := 0, width := 1000, height := 1000 } 1
            Handle.bottomRight { x := 0, y := 0, w := 100, h := 100 } 0).w / 1) :=
  ⟨by norm_num [contained, resizeDerive],
   resize_min_floor { left := 0, top := 0, width := 1000, height := 1000 } 1
     Handle.bottomRight { x := 0, y := 0, w := 100, h := 100 } 0
     (by norm_num [contained, resizeDerive])⟩

/-- Claim C2: the native-space conversion performed on commit scales each
coordinate, floors it, and clamps width to `nativeWidth - x` and height to
`nativeHeight - y`; consequently, for every committed crop under a
non-degenerate geometry the submitted rectangle satisfies
`x + width ≤ nativeWidth` and `y + height ≤ nativeHeight`. -/
theorem scaledCrop_within_native (nW nH : ℕ) (dW dH : ℚ) (crop : Rect)
    (_h1 : 0 < dW) (_h2 : 0 < dH) :
    (scaledCrop nW nH dW dH crop).x + (scaledCrop nW nH dW dH crop).w ≤ (nW : ℤ) ∧
    (scaledCrop nW nH dW dH crop).y + (scaledCrop nW nH dW dH crop).h ≤ (nH : ℤ) := by
  constructor
  · have h := min_le_right ⌊crop.w * ((nW : ℚ) / dW)⌋
      ((nW : ℤ) - ⌊crop.x * ((nW : ℚ) / dW)⌋)
    simp only [scaledCrop]
    omega
  · have h := min_le_right ⌊crop.h * ((nH : ℚ) / dH)⌋
      ((nH : ℤ) - ⌊crop.y * ((nH : ℚ) / dH)⌋)
    simp only [scaledCrop]
    omega

/-- Claim C2 (witness): a concrete committed crop; the geometry is
non-degenerate and the scaled rectangle stays inside the native image. -/
theorem scaledCrop_within_native_witness :
    (0 : ℚ) < 500 ∧ (0 : ℚ) < 400 ∧
    ((scaledCrop 1000 800 500 400 { x := 10, y := 20, w := 30, h := 40 }).x +
        (scaledCrop 1000 800 500 400 { x := 10, y := 20, w := 30, h := 40 }).w ≤
      (1000 : ℤ) ∧
    (scaledCrop 1000 800 500 400 { x := 10, y := 20, w := 30, h := 40 }).y +
        (scaledCrop 1000 800 500 400 { x := 10, y := 20, w := 30, h := 40 }).h ≤
      (800 : ℤ)) :=
  ⟨by norm_num, by norm_num,
   scaledCrop_within_native 1000 800 500 400 { x := 10, y := 20, w := 30, h := 40 }
     (by norm_num) (by norm_num)⟩

/-- Claim C8: entering Review (stage 3) with both stored orientation crops
zero redirects the state machine back to Portrait (stage 1) exactly once:
the first `updateStage` invocation at stage 3 moves to stage 1 and
schedules a re-invocation, and the re-invocation at stage 1 neither moves
the stage nor schedules anything further, so no redirect loop occurs. -/
theorem updateStage_redirect_once (pw lw : ℚ) (hp : pw = 0) (hl : lw = 0) :
    updateStage true false pw lw 3 = (1, true) ∧
    updateStage true false pw lw 1 = (1, false) := by
  subst hp; subst hl
  constructor <;> norm_num [updateStage]

/-- Claim C8 (witness): the redirect-once behavior at the zero crops. -/
theorem updateStage_redirect_once_witness :
    updateStage true false 0 0 3 = (1, true) ∧
    updateStage true false 0 0 1 = (1, false) :=
  updateStage_redirect_once 0 0 rfl rfl

/-- Claim C9 (counterexample): a new gesture start is not ignored while one
is in progress. From the idle state, a touchstart on the crop rectangle
followed by a mousedown on a resize handle (no release in between) leaves
both the drag flag and the resize flag set. -/
theorem gesture_both_flags_cex :
    (gestureRun [GEvent.rectDown true, GEvent.handleDown]).dragging = true ∧
    (gestureRun [GEvent.rectDown true, GEvent.handleDown]).resizing = true := by
  constructor <;> rfl

/-- Claim C9 (amended): the code has no guard ignoring a gesture start
while another gesture is active, so both in-progress flags can be set
simultaneously; however every mouseup/touchend clears both flags, so any
event sequence ending in a release returns the controller to the idle
state. -/
theorem gesture_release_resets (evs : List GEvent) :
    gestureRun (evs ++ [GEvent.up]) = { dragging := false, resizing := false } := by
  have h : ∀ t : GestureFlags, gestureStep t GEvent.up =
      { dragging := false, resizing := false } := by
    intro t
    rcases t with ⟨d, r⟩
    cases d <;> cases r <;> rfl
  simp [gestureRun, List.foldl_append, h]

/-- Claim C10: `getAspectRatio` returns `dimensions[orientation].width /
dimensions[orientation].height` for both orientations whenever the
configuration is initialized; the two branches of its orientation
conditional compute the same formula. -/
theorem getAspectRatio_eq (c : Config) (o : Orientation) (h : c.initialized = true) :
    getAspectRatio c o = some ((c.dimensions o).width / (c.dimensions o).height) := by
  cases o <;> simp [getAspectRatio, getDimensions, h]

/-- Claim C10 (witness): with the configured targets 1080×1920 and
1920×1080, the portrait ratio is 9/16 = 0.5625 and the landscape ratio is
16/9 ≈ 1.778. -/
theorem getAspectRatio_eq_witness :
    getAspectRatio
        { dimensions := fun o =>
            match o with
            | Orientation.portrait => { width := 1080, height := 1920 }
            | Orientation.landscape => { width := 1920, height := 1080 },
          initialized := true } Orientation.portrait = some (9 / 16) ∧
    getAspectRatio
        { dimensions := fun o =>
            match o with
            | Orientation.portrait => { width := 1080, height := 1920 }
            | Orientation.landscape => { width := 1920, height := 1080 },
          initialized := true } Orientation.landscape = some (16 / 9) := by
  constructor
  · rw [getAspectRatio_eq _ _ rfl]; norm_num
  · rw [getAspectRatio_eq _ _ rfl]; norm_num

/-- Claim C4 (code bug): `advance()` then `back()` does not restore the
previously-displayed Portrait rectangle. The stored portrait crop is kept
in display-relative coordinates (written by `updateCropValues` /
`initCropRectangle`), but the saved-crop branch of `initCropRectangle`
multiplies it by `imgWidth/naturalWidth` as if it were native-space. With
a 1000×1000 image displayed at 500×500 (origin 0,0) and the user's
portrait rectangle at display coordinates `(100,0,180,320)`, advancing to
Landscape and coming back displays `(50,0,90,160)` — the rectangle the
user left, shrunk by the display/native factor — instead of
`(100,0,180,320)`. -/
theorem advance_back_restore_bug :
    (backBtn 1000 1000 0 0 500 500 (9 / 16) (16 / 9)
        (advanceBtn 1000 1000 0 0 500 500 (9 / 16) (16 / 9)
          { stage := 1,
            portraitCrop := { x := 100, y := 0, w := 180, h := 320 },
            landscapeCrop := { x := 0, y := 0, w := 0, h := 0 } }).1).2 =
      { x := 50, y := 0, w := 90, h := 160 } ∧
    ({ x := 50, y := 0, w := 90, h := 160 } : Rect) ≠
      { x := 100, y := 0, w := 180, h := 320 } := by
  constructor
  · norm_num [backBtn, advanceBtn, enterStage, initCropRectangle, projectSavedCrop,
      defaultCropRect, storedOf]
  · intro h
    have := congrArg Rect.x h
    norm_num at this

/-- Claim C7 (counterexample): with a degenerate geometry the scaled crop
is not a zero-size rectangle. With `displayWidth = 0` (native 3000×2000,
`displayHeight = 500`) and crop `(10,10,100,100)`, the scale `scaleX` is
`+∞`, the floored x and width are `+∞`, the width clamp computes
`min(+∞, 3000 - ∞) = -∞`, so the submitted width is `-∞`, not `0`. -/
theorem scaledCropJS_degenerate_cex :
    (scaledCropJS (JSNum.num 3000) (JSNum.num 2000) (JSNum.num 0) (JSNum.num 500)
        { x := JSNum.num 10, y := JSNum.num 10, w := JSNum.num 100,
          h := JSNum.num 100 }).w = JSNum.negInf ∧
    ¬ ((scaledCropJS (JSNum.num 3000) (JSNum.num 2000) (JSNum.num 0) (JSNum.num 500)
          { x := JSNum.num 10, y := JSNum.num 10, w := JSNum.num 100,
            h := JSNum.num 100 }).w = JSNum.num 0 ∧
        (scaledCropJS (JSNum.num 3000) (JSNum.num 2000) (JSNum.num 0) (JSNum.num 500)
          { x := JSNum.num 10, y := JSNum.num 10, w := JSNum.num 100,
            h := JSNum.num 100 }).h = JSNum.num 0) := by
  have h : (scaledCropJS (JSNum.num 3000) (JSNum.num 2000) (JSNum.num 0) (JSNum.num 500)
      { x := JSNum.num 10, y := JSNum.num 10, w := JSNum.num 100,
        h := JSNum.num 100 }).w = JSNum.negInf := by
    norm_num [scaledCropJS, jdiv, jmul, jfloor, jsub, jmin]
  exact ⟨h, fun hc => by rw [h] at hc; exact absurd hc.1 (by simp)⟩

/-- Claim C7 (amended): with a degenerate geometry (`displayWidth = 0`,
positive native width) the coordinate transform completes without raising
an error (it is a total function), but it produces non-finite values
rather than a zero-size rectangle: for any crop with non-negative x and
positive width, the scaled width is `-∞` or NaN, never a finite number. -/
theorem scaledCropJS_degenerate_nonfinite (qn qx qw : ℚ) (nH dH cy ch : JSNum)
    (h1 : 0 < qn) (h2 : 0 < qw) (h3 : 0 ≤ qx) :
    jsFinite (scaledCropJS (JSNum.num qn) nH (JSNum.num 0) dH
      { x := JSNum.num qx, y := cy, w := JSNum.num qw, h := ch }).w = false := by
  have hsx : jdiv (JSNum.num qn) (JSNum.num 0) = JSNum.posInf := by
    simp [jdiv, h1]
  have hw : jmul (JSNum.num qw) JSNum.posInf = JSNum.posInf := by
    simp [jmul, h2]
  rcases eq_or_lt_of_le h3 with h0 | h0
  · have hx : jmul (JSNum.num qx) JSNum.posInf = JSNum.nan := by
      rw [← h0]; simp [jmul]
    simp [scaledCropJS, hsx, hx, hw, jfloor, jsub, jmin, jsFinite]
  · have hx : jmul (JSNum.num qx) JSNum.posInf = JSNum.posInf := by
      simp [jmul, h0]
    simp [scaledCropJS, hsx, hx, hw, jfloor, jsub, jmin, jsFinite]

/-- Claim C7 (witness): the amended non-finiteness at another degenerate
input. -/
theorem scaledCropJS_degenerate_nonfinite_witness :
    (0 : ℚ) < 1000 ∧ (0 : ℚ) < 50 ∧ (0 : ℚ) ≤ 5 ∧
    jsFinite (scaledCropJS (JSNum.num 1000) (JSNum.num 1000) (JSNum.num 0)
        (JSNum.num 250)
        { x := JSNum.num 5, y := JSNum.num 5, w := JSNum.num 50,
          h := JSNum.num 50 }).w = false :=
  ⟨by norm_num, by norm_num, by norm_num,
   scaledCropJS_degenerate_nonfinite 1000 5 50 (JSNum.num 1000) (JSNum.num 250)
     (JSNum.num 5) (JSNum.num 50) (by norm_num) (by norm_num) (by norm_num)⟩

theorem floor_scale_le (n D a : ℚ) (hn : 0 < n) (hD : 0 < D) :
    (⌊a * (n / D)⌋ : ℚ) * (D / n) ≤ a := by
  have hprod : n / D * (D / n) = 1 := by
    rw [div_mul_div_comm, mul_comm D n]
    exact div_self (by positivity)
  have h1 : (⌊a * (n / D)⌋ : ℚ) ≤ a * (n / D) := Int.floor_le _
  calc (⌊a * (n / D)⌋ : ℚ) * (D / n)
      ≤ a * (n / D) * (D / n) := mul_le_mul_of_nonneg_right h1 (by positivity)
    _ = a * (n / D * (D / n)) := by ring
    _ = a := by rw [hprod, mul_one]

theorem floor_scale_ge (n D a : ℚ) (hn : 0 < n) (hD : 0 < D) (hs : D ≤ n) :
    a - 1 ≤ (⌊a * (n / D)⌋ : ℚ) * (D / n) := by
  have hprod : n / D * (D / n) = 1 := by
    rw [div_mul_div_comm, mul_comm D n]
    exact div_self (by positivity)
  have h2 : a * (n / D) < (⌊a * (n / D)⌋ : ℚ) + 1 := Int.lt_floor_add_one _
  have h3 : a * (n / D) * (D / n) ≤ ((⌊a * (n / D)⌋ : ℚ) + 1) * (D / n) :=
    mul_le_mul_of_nonneg_right h2.le (by positivity)
  have hDn1 : D / n ≤ 1 := (div_le_one hn).2 hs
  have ha' : a * (n / D) * (D / n) = a := by
    rw [mul_assoc, hprod, mul_one]
  rw [ha', add_mul, one_mul] at h3
  linarith

theorem scaled_min_eq (m : ℕ) (D a w : ℚ) (hD : 0 < D) (hDn : D ≤ (m : ℚ))
    (_ha : 0 ≤ a) (haw : a + w ≤ D) :
    min ⌊w * ((m : ℚ) / D)⌋ ((m : ℤ) - ⌊a * ((m : ℚ) / D)⌋) = ⌊w * ((m : ℚ) / D)⌋ := by
  apply min_eq_left
  have hn : (0 : ℚ) < (m : ℚ) := lt_of_lt_of_le hD hDn
  have hs : (0 : ℚ) < (m : ℚ) / D := div_pos hn hD
  have h1 : (⌊w * ((m : ℚ) / D)⌋ : ℚ) ≤ w * ((m : ℚ) / D) := Int.floor_le _
  have h2 : (⌊a * ((m : ℚ) / D)⌋ : ℚ) ≤ a * ((m : ℚ) / D) := Int.floor_le _
  have h4 : (w + a) * ((m : ℚ) / D) ≤ D * ((m : ℚ) / D) :=
    mul_le_mul_of_nonneg_right (by linarith) hs.le
  have h5 : D * ((m : ℚ) / D) = (m : ℚ) := by
    rw [mul_comm]
    exact div_mul_cancel₀ _ hD.ne'
  rw [add_mul, h5] at h4
  have h6 : (⌊w * ((m : ℚ) / D)⌋ : ℚ) ≤ ((m : ℤ) : ℚ) - (⌊a * ((m : ℚ) / D)⌋ : ℚ) := by
    push_cast
    linarith
  exact_mod_cast h6

/-- Claim C5 (counterexample): with a display larger than the native image
the round trip loses more than one pixel. Native 2×2 displayed at 20×20
(non-degenerate), rectangle `(9,9,10,10)` satisfying the display-bounds
invariant: committing floors `9 * (2/20)` to `0`, and re-projecting yields
x = 0, nine pixels away from the original x = 9. -/
theorem roundTrip_one_pixel_cex :
    (0 : ℚ) < 20 ∧ (0 : ℚ) ≤ 9 ∧ (0 : ℚ) ≤ 10 ∧ (9 : ℚ) + 10 ≤ 20 ∧
    roundTrip 2 2 0 0 20 20 { x := 9, y := 9, w := 10, h := 10 } =
      { x := 0, y := 0, w := 10, h := 10 } ∧
    ¬ |(roundTrip 2 2 0 0 20 20 { x := 9, y := 9, w := 10, h := 10 }).x - 0 - 9| ≤ 1 := by
  have h : roundTrip 2 2 0 0 20 20 { x := 9, y := 9, w := 10, h := 10 } =
      { x := 0, y := 0, w := 10, h := 10 } := by
    norm_num [roundTrip, toDisplayProj, scaledCrop, projectSavedCrop]
  refine ⟨by norm_num, by norm_num, by norm_num, by norm_num, h, ?_⟩
  rw [h]
  norm_num

/-- Claim C5 (amended): the round trip `toDisplay (toNative r g) g` equals
`r` within one pixel in each of x, y, width, height for every rectangle
satisfying the display-bounds invariant and every non-degenerate geometry
whose display size does not exceed its native size (scale factors at least
one); when the image is displayed upscaled the error is bounded by one
native pixel, which is more than one display pixel. -/
theorem roundTrip_within_one_pixel (nW nH : ℕ) (imgLeft imgTop dW dH : ℚ) (r : Rect)
    (hdW : 0 < dW) (hdH : 0 < dH) (hWn : dW ≤ (nW : ℚ)) (hHn : dH ≤ (nH : ℚ))
    (hx : 0 ≤ r.x) (hy : 0 ≤ r.y) (_hw : 0 ≤ r.w) (_hh : 0 ≤ r.h)
    (hxw : r.x + r.w ≤ dW) (hyh : r.y + r.h ≤ dH) :
    |(roundTrip nW nH imgLeft imgTop dW dH r).x - imgLeft - r.x| ≤ 1 ∧
    |(roundTrip nW nH imgLeft imgTop dW dH r).y - imgTop - r.y| ≤ 1 ∧
    |(roundTrip nW nH imgLeft imgTop dW dH r).w - r.w| ≤ 1 ∧
    |(roundTrip nW nH imgLeft imgTop dW dH r).h - r.h| ≤ 1 := by
  have hn : (0 : ℚ) < (nW : ℚ) := lt_of_lt_of_le hdW hWn
  have hm : (0 : ℚ) < (nH : ℚ) := lt_of_lt_of_le hdH hHn
  have hminW := scaled_min_eq nW dW r.x r.w hdW hWn hx hxw
  have hminH := scaled_min_eq nH dH r.y r.h hdH hHn hy hyh
  have hAle := floor_scale_le (nW : ℚ) dW r.x hn hdW
  have hAge := floor_scale_ge (nW : ℚ) dW r.x hn hdW hWn
  have hWle := floor_scale_le (nW : ℚ) dW r.w hn hdW
  have hWge := floor_scale_ge (nW : ℚ) dW r.w hn hdW hWn
  have hBle := floor_scale_le (nH : ℚ) dH r.y hm hdH
  have hBge := floor_scale_ge (nH : ℚ) dH r.y hm hdH hHn
  have hHle := floor_scale_le (nH : ℚ) dH r.h hm hdH
  have hHge := floor_scale_ge (nH : ℚ) dH r.h hm hdH hHn
  have hWD : (⌊r.w * ((nW : ℚ) / dW)⌋ : ℚ) * (dW / (nW : ℚ)) ≤ dW := by linarith
  have hHD : (⌊r.h * ((nH : ℚ) / dH)⌋ : ℚ) * (dH / (nH : ℚ)) ≤ dH := by linarith
  have hcx : ¬ (imgLeft + dW < imgLeft + (⌊r.x * ((nW : ℚ) / dW)⌋ : ℚ) * (dW / (nW : ℚ)) +
      (⌊r.w * ((nW : ℚ) / dW)⌋ : ℚ) * (dW / (nW : ℚ))) :=
    not_lt.2 (by linarith)
  have hcy : ¬ (imgTop + dH < imgTop + (⌊r.y * ((nH : ℚ) / dH)⌋ : ℚ) * (dH / (nH : ℚ)) +
      (⌊r.h * ((nH : ℚ) / dH)⌋ : ℚ) * (dH / (nH : ℚ))) :=
    not_lt.2 (by linarith)
  have hrt : roundTrip nW nH imgLeft imgTop dW dH r =
      { x := imgLeft + (⌊r.x * ((nW : ℚ) / dW)⌋ : ℚ) * (dW / (nW : ℚ)),
        y := imgTop + (⌊r.y * ((nH : ℚ) / dH)⌋ : ℚ) * (dH / (nH : ℚ)),
        w := (⌊r.w * ((nW : ℚ) / dW)⌋ : ℚ) * (dW / (nW : ℚ)),
        h := (⌊r.h * ((nH : ℚ) / dH)⌋ : ℚ) * (dH / (nH : ℚ)) } := by
    unfold roundTrip toDisplayProj projectSavedCrop scaledCrop
    simp only [hminW, hminH]
    rw [min_eq_left hWD, min_eq_left hHD, if_neg hcx, if_neg hcy]
  rw [hrt]
  dsimp only
  refine ⟨?_, ?_, ?_, ?_⟩ <;> rw [abs_le] <;> constructor <;> linarith

/-- Claim C5 (witness): for a photo downscaled for display (scale factor
2) the round trip stays within one pixel in every coordinate. -/
theorem roundTrip_within_one_pixel_witness :
    (0 : ℚ) < 500 ∧ (500 : ℚ) ≤ (1000 : ℕ) ∧ (0 : ℚ) ≤ 100 ∧
    (100 : ℚ) + 200 ≤ 500 ∧
    (|(roundTrip 1000 1000 3 4 500 500 { x := 100, y := 100, w := 200, h := 200 }).x -
          3 - 100| ≤ 1 ∧
      |(roundTrip 1000 1000 3 4 500 500 { x := 100, y := 100, w := 200, h := 200 }).y -
          4 - 100| ≤ 1 ∧
      |(roundTrip 1000 1000 3 4 500 500 { x := 100, y := 100, w := 200, h := 200 }).w -
          200| ≤ 1 ∧
      |(roundTrip 1000 1000 3 4 500 500 { x := 100, y := 100, w := 200, h := 200 }).h -
          200| ≤ 1) :=
  ⟨by norm_num, by norm_num, by norm_num, by norm_num,
   roundTrip_within_one_pixel 1000 1000 3 4 500 500
     { x := 100, y := 100, w := 200, h := 200 } (by norm_num) (by norm_num)
     (by norm_num) (by norm_num) (by norm_num) (by norm_num) (by norm_num)
     (by norm_num) (by norm_num) (by norm_num)⟩

end CropEngine
